import Mathlib

/-!
Shallow embedding of the `digit-interface` library (files
`digit_interface/digit.py` and `digit_interface/digit_handler.py`).

The Python code is a thin stateful client around two external services:
the udev device registry (`pyudev`) and an OpenCV video-capture session
(`cv2.VideoCapture`).  Both externals are modelled explicitly:

* the udev enumeration result is passed in as a `List DeviceInfo`;
* the capture session is a record `VideoCapture` of the properties the
  code sets (`CAP_PROP_FRAME_WIDTH`, `CAP_PROP_FRAME_HEIGHT`,
  `CAP_PROP_FPS`, `CAP_PROP_ZOOM`) plus its `isOpened` flag, and the
  result of `VideoCapture.read()` is passed in as an optional frame.

Mutation of `self` is explicit state passing on `DigitState`; a Python
exception is `Except.error` carrying the error together with the state
at the moment the exception is raised (Python does not roll back
assignments already executed).
-/

/-- Mirror of a Python distinction the code relies on: `ValueError`
(raised by `set_intensity_rgb` validation and by `int()`),
`AttributeError` (any method call on `self.__dev` while it is `None`),
and a plain `Exception` as raised by `connect`, `get_frame`, `populate`. -/
inductive PyErr where
  | valueError (msg : String)
  | attributeError (msg : String)
  | exception (msg : String)
deriving DecidableEq

/-- The `{"width": _, "height": _}` sub-dictionary of a stream preset. -/
structure Resolution where
  width : Int
  height : Int
deriving DecidableEq

/-- One entry of `DigitDefaults.STREAMS`: a resolution dictionary and an
fps dictionary (association list keyed by the strings used in the code,
for example `"60fps"`). -/
structure StreamConfig where
  resolution : Resolution
  fps_choices : List (String × Int)
deriving DecidableEq

/-- `DigitDefaults.STREAMS["VGA"]`: 640x480, fps choices 30 and 15. -/
def Digit.STREAMS_VGA : StreamConfig :=
  ⟨⟨640, 480⟩, [("30fps", 30), ("15fps", 15)]⟩

/-- `DigitDefaults.STREAMS["QVGA"]`: 320x240, fps choices 60 and 30. -/
def Digit.STREAMS_QVGA : StreamConfig :=
  ⟨⟨320, 240⟩, [("60fps", 60), ("30fps", 30)]⟩

/-- `DigitDefaults.LIGHTING_MIN`. -/
def Digit.LIGHTING_MIN : Int := 0

/-- `DigitDefaults.LIGHTING_MAX`. -/
def Digit.LIGHTING_MAX : Int := 15

/-- `Digit.__LIGHTING_SCALER`. -/
def Digit.LIGHTING_SCALER : Int := 17

/-- The state of a `cv2.VideoCapture` session as far as this library
touches it: the `isOpened()` flag and the four numeric properties the
code writes through `set`. -/
structure VideoCapture where
  opened : Bool
  prop_frame_width : Int
  prop_frame_height : Int
  prop_fps : Int
  prop_zoom : Int
deriving DecidableEq

/-- The descriptor dictionary produced by `DigitHandler._parse` from a
udev device: keys `dev_name`, `manufacturer`, `model`, `revision`,
`serial` (all strings, as udev reports them). -/
structure DeviceInfo where
  dev_name : String
  manufacturer : String
  model : String
  revision : String
  serial : String
deriving DecidableEq

/-- The mutable attributes of a `Digit` object.  `dev` is
`self.__dev` (`None` before `connect`).  `resolution` is the
`self.resolution` dictionary, `none` standing for the initial empty
dictionary `{}`.  `revision` is the integer stored by `populate`
(the Python initial value is the empty string; it is represented here
by `0`, which like the empty string is below every revision threshold
the code compares against). -/
structure DigitState where
  serial : Option String
  name : Option String
  dev : Option VideoCapture
  dev_name : String
  manufacturer : String
  model : String
  revision : Int
  resolution : Option Resolution
  fps : Int
  intensity : Int
deriving DecidableEq

/-- The field initialisation performed by `Digit.__init__` before the
optional call to `populate`. -/
def Digit.init_state (serial name : Option String) : DigitState :=
  { serial := serial, name := name, dev := none, dev_name := "",
    manufacturer := "", model := "", revision := 0,
    resolution := none, fps := 0, intensity := 0 }

/-- `DigitHandler.find_digit(serial)`: a linear scan (Python `for` loop)
over the enumeration result, returning the first descriptor whose
`serial` entry equals the query, else `None`.  The enumeration
(`DigitHandler.list_digits()`, an external udev query) is the `digits`
argument. -/
def DigitHandler.find_digit (digits : List DeviceInfo) (serial : String) :
    Option DeviceInfo :=
  match digits with
  | [] => none
  | d :: rest =>
    if d.serial = serial then some d else DigitHandler.find_digit rest serial

/-- `Digit.populate(serial)`: resolves the serial through
`DigitHandler.find_digit` and copies the descriptor fields into the
object, raising `Exception` when the serial is not found.  The field
assignments happen in source order; `int(digit["revision"])` raises
`ValueError` on a malformed revision string, after `dev_name`,
`manufacturer` and `model` have already been assigned. -/
def Digit.populate (digits : List DeviceInfo) (serial : String)
    (s : DigitState) : Except (PyErr × DigitState) (Unit × DigitState) :=
  match DigitHandler.find_digit digits serial with
  | none => .error (.exception ("Cannot find DIGIT with serial " ++ serial), s)
  | some d =>
    let s1 := { s with dev_name := d.dev_name, manufacturer := d.manufacturer,
                       model := d.model }
    match d.revision.toInt? with
    | none => .error (.valueError ("invalid literal for int() with base 10: " ++ d.revision), s1)
    | some rev => .ok ((), { s1 with revision := rev, serial := some d.serial })

/-- `Digit.__init__(serial, name)`: stores identity fields and, when a
serial is given, immediately calls `populate`. -/
def Digit.construct (digits : List DeviceInfo) (serial name : Option String) :
    Except (PyErr × DigitState) DigitState :=
  let s := Digit.init_state serial name
  match serial with
  | none => .ok s
  | some sn =>
    match Digit.populate digits sn s with
    | .error e => .error e
    | .ok (_, s1) => .ok s1

/-- `Digit.set_resolution(resolution)`: stores the preset's
`"resolution"` entry in the mirror field, then writes width and height
to the capture session (an `AttributeError` if `self.__dev` is `None`). -/
def Digit.set_resolution (stream : StreamConfig) (s : DigitState) :
    Except (PyErr × DigitState) (Unit × DigitState) :=
  let s1 := { s with resolution := some stream.resolution }
  match s1.dev with
  | none => .error (.attributeError "NoneType object has no attribute set", s1)
  | some cap =>
    .ok ((), { s1 with dev := some { cap with
        prop_frame_width := stream.resolution.width,
        prop_frame_height := stream.resolution.height } })

/-- `Digit.set_fps(fps)`: stores the value in the mirror field, then
writes `CAP_PROP_FPS` to the capture session. -/
def Digit.set_fps (fps : Int) (s : DigitState) :
    Except (PyErr × DigitState) (Unit × DigitState) :=
  let s1 := { s with fps := fps }
  match s1.dev with
  | none => .error (.attributeError "NoneType object has no attribute set", s1)
  | some cap => .ok ((), { s1 with dev := some { cap with prop_fps := fps } })

/-- The Python membership test `x in range(0, 16)` on an integer. -/
def in_range_16 (x : Int) : Bool := 0 ≤ x && x < 16

/-- The composite control value `(r << 8) | (g << 4) | b` computed by
`set_intensity_rgb` (the inputs are non-negative there, so the Python
arbitrary-precision shifts and ors coincide with the `Nat` ones). -/
def rgb_composite (r g b : Nat) : Nat := ((r <<< 8) ||| (g <<< 4)) ||| b

/-- `Digit.set_intensity_rgb(r, g, b)`: validates the three channels
eagerly against `range(0, 16)` and raises `ValueError` before touching
any state when one fails; otherwise packs the nibbles, assigns the
mirror field `self.intensity`, and writes the composite to the capture
session via `CAP_PROP_ZOOM` (an `AttributeError` if `self.__dev` is
`None`, raised after the mirror assignment). -/
def Digit.set_intensity_rgb (r g b : Int) (s : DigitState) :
    Except (PyErr × DigitState) (Int × DigitState) :=
  if in_range_16 r && in_range_16 g && in_range_16 b then
    let intensity : Int := (rgb_composite r.toNat g.toNat b.toNat : Nat)
    let s1 := { s with intensity := intensity }
    match s1.dev with
    | none => .error (.attributeError "NoneType object has no attribute set", s1)
    | some cap =>
      .ok (intensity, { s1 with dev := some { cap with prop_zoom := intensity } })
  else
    .error (.valueError "RGB values must be between 0 and 15.", s)

/-- `Digit.set_intensity(intensity)`: on firmware revisions below 200
the value is first put through `int(intensity / 17)` (Python truncating
division, `Int.tdiv`); the result is applied to all three channels via
`set_intensity_rgb`, whose return value is stored and returned. -/
def Digit.set_intensity (intensity : Int) (s : DigitState) :
    Except (PyErr × DigitState) (Int × DigitState) :=
  let intensity :=
    if s.revision < 200 then Int.tdiv intensity Digit.LIGHTING_SCALER
    else intensity
  Digit.set_intensity_rgb intensity intensity intensity s

/-- `Digit.connect()`: binds a fresh capture session (the result of the
external `cv2.VideoCapture(self.dev_name)` call is the `cap` argument),
raises when it did not open, then applies the defaults: QVGA
resolution, the `"60fps"` entry of the QVGA fps dictionary, and uniform
intensity 15. -/
def Digit.connect (cap : VideoCapture) (s : DigitState) :
    Except (PyErr × DigitState) (Unit × DigitState) :=
  let s1 := { s with dev := some cap }
  if cap.opened then
    match Digit.set_resolution Digit.STREAMS_QVGA s1 with
    | .error e => .error e
    | .ok (_, s2) =>
      match Digit.STREAMS_QVGA.fps_choices.lookup "60fps" with
      | none => .error (.exception "KeyError: 60fps", s2)
      | some f =>
        match Digit.set_fps f s2 with
        | .error e => .error e
        | .ok (_, s3) =>
          match Digit.set_intensity 15 s3 with
          | .error e => .error e
          | .ok (_, s4) => .ok ((), s4)
  else
    .error (.exception ("Error opening video stream: " ++ s1.dev_name), s1)

/-- `Digit.disconnect()`: calls `self.__dev.release()` unconditionally;
when `self.__dev` is `None` this is an `AttributeError`, otherwise the
session is released (modelled as clearing the `isOpened` flag). -/
def Digit.disconnect (s : DigitState) :
    Except (PyErr × DigitState) (Unit × DigitState) :=
  match s.dev with
  | none => .error (.attributeError "NoneType object has no attribute release", s)
  | some cap => .ok ((), { s with dev := some { cap with opened := false } })

/-- `cv2.transpose` on a rectangular 2-D buffer: output row `j` is input
column `j`; the number of output rows is the length of the first input
row.  (External OpenCV primitive, modelled by its mathematical
definition.) -/
def cv_transpose {α : Type} [Inhabited α] (m : List (List α)) : List (List α) :=
  (List.range (m.headD []).length).map (fun j => m.map (fun row => row.getD j default))

/-- `cv2.flip(m, 0)`: flip about the horizontal axis, i.e. reverse the
row order.  (External OpenCV primitive.) -/
def cv_flip0 {α : Type} (m : List (List α)) : List (List α) := m.reverse

/-- `Digit.get_frame(transpose)`: reads one frame from the capture
session (the outcome of the external `self.__dev.read()` is the
`read_result` argument, `none` for a failed read), raises on a failed
read, and unless `transpose` is requested corrects the orientation by
`cv2.transpose` followed by `cv2.flip(_, 0)`. -/
def Digit.get_frame {α : Type} [Inhabited α] (read_result : Option (List (List α)))
    (transpose : Bool) (s : DigitState) :
    Except (PyErr × DigitState) (List (List α) × DigitState) :=
  match s.dev with
  | none => .error (.attributeError "NoneType object has no attribute read", s)
  | some _ =>
    match read_result with
    | none => .error (.exception ("Unable to grab frame from " ++ s.dev_name), s)
    | some frame =>
      if transpose then .ok (frame, s)
      else .ok (cv_flip0 (cv_transpose frame), s)

/-- A numpy `uint8` pixel. -/
abbrev U8 : Type := Fin 256

/-- numpy elementwise subtraction of two same-shaped `uint8` arrays:
per-pixel `Fin 256` subtraction, which wraps modulo 256. -/
def frame_sub (a b : List (List U8)) : List (List U8) :=
  List.zipWith (fun ra rb => List.zipWith (fun x y : U8 => x - y) ra rb) a b

/-- `Digit.get_diff(ref_frame)`: captures a frame through
`get_frame()` (with the default `transpose=False`) and returns the
numpy difference `frame - ref_frame`. -/
def Digit.get_diff (read_result : Option (List (List U8)))
    (ref_frame : List (List U8)) (s : DigitState) :
    Except (PyErr × DigitState) (List (List U8) × DigitState) :=
  match Digit.get_frame read_result false s with
  | .error e => .error e
  | .ok (frame, s1) => .ok (frame_sub frame ref_frame, s1)

/-- The connection predicate computed at the top of `Digit.info()`:
`self.__dev is not None and self.__dev.isOpened()`. -/
def Digit.is_connected (s : DigitState) : Bool :=
  match s.dev with
  | none => false
  | some cap => cap.opened

/-- The identity part of the `Digit.info()` string (name, device path,
model, revision, connection flag). -/
def Digit.info_header (s : DigitState) : String :=
  "Name: " ++ (match s.name with | none => "None" | some n => n) ++ " " ++ s.dev_name ++
  "\n\t- Model: " ++ s.model ++
  "\n\t- Revision: " ++ toString s.revision ++
  "\n\t- Connected?: " ++ (if Digit.is_connected s then "True" else "False")

/-- `Digit.info()`: the identity header and, when connected, the stream
information read from the mirror fields.  Reading
`self.resolution["width"]` of the initial empty dictionary is a
`KeyError`. -/
def Digit.info (s : DigitState) : Except PyErr String :=
  let base := Digit.info_header s
  if Digit.is_connected s then
    match s.resolution with
    | none => .error (.exception "KeyError: width")
    | some r =>
      .ok (base ++ "\nStream Info:" ++
        "\n\t- Resolution: " ++ toString r.width ++ " x " ++ toString r.height ++
        "\n\t- FPS: " ++ toString s.fps ++
        "\n\t- LED Intensity: " ++ toString s.intensity)
  else
    .ok base

/-! ### Sample data for concrete witnesses -/

/-- An opened capture session with all properties zeroed. -/
def sampleCap : VideoCapture := ⟨true, 0, 0, 0, 0⟩

/-- A connected handle on current firmware (revision 200). -/
def sampleState : DigitState :=
  { serial := some "D12345", name := none, dev := some sampleCap,
    dev_name := "/dev/video4", manufacturer := "Facebook", model := "DIGIT",
    revision := 200, resolution := some ⟨320, 240⟩, fps := 60, intensity := 4095 }

/-- A connected handle on legacy firmware (revision 100, below the 200
threshold). -/
def sampleStateOld : DigitState := { sampleState with revision := 100 }

/-- Applies a state rewrite to both the success state and the
exception-carrying state of a `set_intensity_rgb` result. -/
def map_result_state (f : DigitState → DigitState) :
    Except (PyErr × DigitState) (Int × DigitState) →
    Except (PyErr × DigitState) (Int × DigitState)
  | .error (e, t) => .error (e, f t)
  | .ok (v, t) => .ok (v, f t)

/-! ### Claims -/

/-- Claim C3: `set_intensity_rgb` raises `ValueError` exactly when at
least one of the three channel arguments lies outside `[0, 15]`; each
channel position is validated independently. -/
theorem set_intensity_rgb_value_error_iff (r g b : Int) (s : DigitState) :
    (∃ msg s1, Digit.set_intensity_rgb r g b s = .error (.valueError msg, s1)) ↔
      ¬(0 ≤ r ∧ r ≤ 15 ∧ 0 ≤ g ∧ g ≤ 15 ∧ 0 ≤ b ∧ b ≤ 15) := by
  by_cases h : (in_range_16 r && in_range_16 g && in_range_16 b) = true
  · have hin : 0 ≤ r ∧ r ≤ 15 ∧ 0 ≤ g ∧ g ≤ 15 ∧ 0 ≤ b ∧ b ≤ 15 := by
      simp [in_range_16] at h
      omega
    simp only [Digit.set_intensity_rgb, h, if_true]
    constructor
    · intro ⟨msg, s1, hmsg⟩
      cases hdev : s.dev <;> simp [hdev] at hmsg
    · intro hcontra
      exact absurd hin hcontra
  · have hout : ¬(0 ≤ r ∧ r ≤ 15 ∧ 0 ≤ g ∧ g ≤ 15 ∧ 0 ≤ b ∧ b ≤ 15) := by
      simp [in_range_16] at h
      omega
    simp only [Digit.set_intensity_rgb, h, if_false]
    exact ⟨fun _ => hout, fun _ => ⟨"RGB values must be between 0 and 15.", s, rfl⟩⟩

/-- Claim C3 witness: out-of-range red channel 16 raises `ValueError`
on a concrete connected handle. -/
theorem set_intensity_rgb_value_error_iff_witness :
    ∃ msg s1, Digit.set_intensity_rgb 16 0 0 sampleState =
      .error (.valueError msg, s1) :=
  (set_intensity_rgb_value_error_iff 16 0 0 sampleState).2 (by omega)

/-- Claim C10: with any channel outside `[0, 15]`, `set_intensity_rgb`
raises before performing any mutation — the returned error carries the
state unchanged — while a legal triple on a handle with a capture
session fully succeeds, updating both the mirror field and the
session's control value. -/
theorem set_intensity_rgb_no_mutation_on_invalid (r g b : Int) (s : DigitState)
    (hout : ¬(0 ≤ r ∧ r ≤ 15 ∧ 0 ≤ g ∧ g ≤ 15 ∧ 0 ≤ b ∧ b ≤ 15)) :
    Digit.set_intensity_rgb r g b s =
      .error (.valueError "RGB values must be between 0 and 15.", s) ∧
    (∀ cap, s.dev = some cap →
      ∀ r2 g2 b2 : Int, 0 ≤ r2 ∧ r2 ≤ 15 ∧ 0 ≤ g2 ∧ g2 ≤ 15 ∧ 0 ≤ b2 ∧ b2 ≤ 15 →
        ∃ v : Int, Digit.set_intensity_rgb r2 g2 b2 s =
          .ok (v, { s with intensity := v,
                           dev := some { cap with prop_zoom := v } })) := by
  constructor
  · have hc : (in_range_16 r && in_range_16 g && in_range_16 b) = false := by
      simp [in_range_16]
      omega
    simp [Digit.set_intensity_rgb, hc]
  · intro cap hdev r2 g2 b2 hin
    have hc : (in_range_16 r2 && in_range_16 g2 && in_range_16 b2) = true := by
      simp [in_range_16]
      omega
    exact ⟨((rgb_composite r2.toNat g2.toNat b2.toNat : Nat) : Int),
      by simp [Digit.set_intensity_rgb, hc, hdev]⟩

/-- Claim C10 witness: the invalid triple (16, 0, 0) fails on a
concrete connected handle with the state unchanged, and the legal
triple (1, 2, 3) fully succeeds there. -/
theorem set_intensity_rgb_no_mutation_on_invalid_witness :
    Digit.set_intensity_rgb 16 0 0 sampleState =
      .error (.valueError "RGB values must be between 0 and 15.", sampleState) ∧
    ∃ v : Int, Digit.set_intensity_rgb 1 2 3 sampleState =
      .ok (v, { sampleState with intensity := v,
                                 dev := some { sampleCap with prop_zoom := v } }) :=
  ⟨(set_intensity_rgb_no_mutation_on_invalid 16 0 0 sampleState (by omega)).1,
   (set_intensity_rgb_no_mutation_on_invalid 16 0 0 sampleState (by omega)).2
     sampleCap rfl 1 2 3 (by omega)⟩

/-- Claim C2 counterexample: on current firmware (revision 200), the
out-of-range level 16 is not clamped to the maximum 15 — the call
raises `ValueError` instead of returning the bound. -/
theorem set_intensity_16_not_clamped :
    Digit.set_intensity 16 sampleState =
      .error (.valueError "RGB values must be between 0 and 15.", sampleState) := by
  rfl

/-- Claim C2 (amended): for a handle at or above the revision-200
threshold, `set_intensity` does not clamp an out-of-range level: it
passes the level to `set_intensity_rgb`, which raises `ValueError` and
leaves the state unchanged. -/
theorem set_intensity_out_of_range_raises (i : Int) (s : DigitState)
    (hrev : 200 ≤ s.revision) (hout : i < 0 ∨ 15 < i) :
    Digit.set_intensity i s =
      .error (.valueError "RGB values must be between 0 and 15.", s) := by
  have h1 : ¬ (s.revision < 200) := by omega
  have hi : in_range_16 i = false := by
    simp [in_range_16]
    omega
  simp [Digit.set_intensity, h1, Digit.set_intensity_rgb, hi]

/-- Claim C2 witness (amended form): level 16 on a concrete
revision-200 handle raises `ValueError` with the state unchanged. -/
theorem set_intensity_out_of_range_raises_witness :
    Digit.set_intensity 16 sampleState =
      .error (.valueError "RGB values must be between 0 and 15.", sampleState) :=
  set_intensity_out_of_range_raises 16 sampleState (by norm_num [sampleState]) (by omega)

/-- Claim C7: below the revision-200 threshold `set_intensity` first
divides the level by the scale factor 17 with Python truncating
division; at or above the threshold the level is applied unscaled; and
`set_intensity_rgb` is insensitive to the stored revision (its result
on a state with any substituted revision is the result on the original
state with the same substitution applied). -/
theorem set_intensity_revision_scaling (i r g b rev : Int) (s : DigitState) :
    (s.revision < 200 →
      Digit.set_intensity i s =
        Digit.set_intensity_rgb (Int.tdiv i 17) (Int.tdiv i 17) (Int.tdiv i 17) s) ∧
    (200 ≤ s.revision →
      Digit.set_intensity i s = Digit.set_intensity_rgb i i i s) ∧
    (Digit.set_intensity_rgb r g b { s with revision := rev } =
      map_result_state (fun t => { t with revision := rev })
        (Digit.set_intensity_rgb r g b s)) := by
  refine ⟨fun h => ?_, fun h => ?_, ?_⟩
  · simp [Digit.set_intensity, h, Digit.LIGHTING_SCALER]
  · have h1 : ¬ (s.revision < 200) := by omega
    simp [Digit.set_intensity, h1]
  · by_cases hc : (in_range_16 r && in_range_16 g && in_range_16 b) = true
    · cases hdev : s.dev <;>
        simp [Digit.set_intensity_rgb, hc, hdev, map_result_state]
    · have hc2 : (in_range_16 r && in_range_16 g && in_range_16 b) = false :=
        Bool.eq_false_iff.mpr hc
      simp [Digit.set_intensity_rgb, hc2, map_result_state]

/-- Claim C7 witness: on the concrete legacy handle (revision 100),
level 40 is applied as `Int.tdiv 40 17 = 2` on every channel; on the
concrete revision-200 handle it is applied unscaled; and substituting
revision 100 into the revision-200 handle commutes with
`set_intensity_rgb`. -/
theorem set_intensity_revision_scaling_witness :
    Digit.set_intensity 40 sampleStateOld =
      Digit.set_intensity_rgb (Int.tdiv 40 17) (Int.tdiv 40 17) (Int.tdiv 40 17)
        sampleStateOld ∧
    Digit.set_intensity 7 sampleState = Digit.set_intensity_rgb 7 7 7 sampleState ∧
    Digit.set_intensity_rgb 1 2 3 { sampleState with revision := 100 } =
      map_result_state (fun t => { t with revision := 100 })
        (Digit.set_intensity_rgb 1 2 3 sampleState) :=
  ⟨(set_intensity_revision_scaling 40 1 2 3 100 sampleStateOld).1 (by decide),
   (set_intensity_revision_scaling 7 1 2 3 100 sampleState).2.1 (by decide),
   (set_intensity_revision_scaling 7 1 2 3 100 sampleState).2.2⟩

/-- Claim C4: for every legal triple, the composite produced by
`set_intensity_rgb` encodes the channels in fixed 4-bit fields with red
most significant — extracting the three nibbles recovers exactly
`(r, g, b)` — and `set_intensity_rgb(15, 0, 0)` succeeds returning
`15 * 256`, fifteen times the scale factor of the red field. -/
theorem set_intensity_rgb_roundtrip :
    (∀ r : Nat, r < 16 → ∀ g : Nat, g < 16 → ∀ b : Nat, b < 16 →
      (rgb_composite r g b >>> 8) &&& 15 = r ∧
      (rgb_composite r g b >>> 4) &&& 15 = g ∧
      rgb_composite r g b &&& 15 = b) ∧
    rgb_composite 15 0 0 = 15 * 256 ∧
    (∀ s : DigitState, ∀ cap, s.dev = some cap →
      Digit.set_intensity_rgb 15 0 0 s =
        .ok (15 * 256, { s with intensity := 15 * 256,
                                dev := some { cap with prop_zoom := 15 * 256 } })) := by
  refine ⟨by decide, by decide, fun s cap hdev => ?_⟩
  have hc : (in_range_16 15 && in_range_16 0 && in_range_16 0) = true := by decide
  simp [Digit.set_intensity_rgb, hc, hdev]
  constructor

/-- Claim C4 witness: the round-trip equalities at the concrete triple
(9, 5, 3), and the red-channel scenario on a concrete connected
handle. -/
theorem set_intensity_rgb_roundtrip_witness :
    ((rgb_composite 9 5 3 >>> 8) &&& 15 = 9 ∧
      (rgb_composite 9 5 3 >>> 4) &&& 15 = 5 ∧
      rgb_composite 9 5 3 &&& 15 = 3) ∧
    Digit.set_intensity_rgb 15 0 0 sampleState =
      .ok (15 * 256,
        { sampleState with intensity := 15 * 256,
                           dev := some { sampleCap with prop_zoom := 15 * 256 } }) :=
  ⟨set_intensity_rgb_roundtrip.1 9 (by decide) 5 (by decide) 3 (by decide),
   set_intensity_rgb_roundtrip.2.2 sampleState sampleCap rfl⟩

/-- Claim C8 counterexample: `disconnect()` on a handle that was never
connected (the capture session is `None`) is not a no-op — it raises
`AttributeError`. -/
theorem disconnect_unconnected_raises :
    Digit.disconnect (Digit.init_state none none) =
      .error (.attributeError "NoneType object has no attribute release",
        Digit.init_state none none) := by
  rfl

/-- Claim C8 (amended): `disconnect()` releases the capture session
when one exists; on a handle whose session is `None` (never connected)
it raises `AttributeError` instead of being a no-op. -/
theorem disconnect_releases_or_raises (s : DigitState) :
    (∀ cap, s.dev = some cap →
      Digit.disconnect s =
        .ok ((), { s with dev := some { cap with opened := false } })) ∧
    (s.dev = none →
      Digit.disconnect s =
        .error (.attributeError "NoneType object has no attribute release", s)) := by
  constructor
  · intro cap hdev
    simp [Digit.disconnect, hdev]
  · intro hdev
    simp [Digit.disconnect, hdev]

/-- Claim C8 witness (amended form): disconnecting the concrete
connected handle releases its session, and disconnecting a fresh
unconnected handle raises. -/
theorem disconnect_releases_or_raises_witness :
    Digit.disconnect sampleState =
      .ok ((), { sampleState with dev := some { sampleCap with opened := false } }) ∧
    Digit.disconnect (Digit.init_state none none) =
      .error (.attributeError "NoneType object has no attribute release",
        Digit.init_state none none) :=
  ⟨(disconnect_releases_or_raises sampleState).1 sampleCap rfl,
   (disconnect_releases_or_raises (Digit.init_state none none)).2 rfl⟩

/-- Helper: `find_digit` returns `none` exactly when no descriptor in
the enumeration has the queried serial. -/
theorem find_digit_none_iff (digits : List DeviceInfo) (serial : String) :
    DigitHandler.find_digit digits serial = none ↔
      ∀ d ∈ digits, d.serial ≠ serial := by
  induction digits with
  | nil => simp [DigitHandler.find_digit]
  | cons a rest ih =>
    by_cases ha : a.serial = serial
    · simp [DigitHandler.find_digit, ha]
    · simp only [DigitHandler.find_digit, if_neg ha, ih, List.mem_cons]
      constructor
      · intro h d hd
        rcases hd with hd | hd
        · subst hd
          exact ha
        · exact h d hd
      · intro h d hd
        exact h d (Or.inr hd)

/-- Helper: a successful `find_digit` result is the first matching
descriptor in enumeration order. -/
theorem find_digit_first (digits : List DeviceInfo) (serial : String)
    (d : DeviceInfo) (h : DigitHandler.find_digit digits serial = some d) :
    ∃ i, ∃ hi : i < digits.length, digits.get ⟨i, hi⟩ = d ∧ d.serial = serial ∧
      ∀ j, ∀ hj : j < i, (digits.get ⟨j, Nat.lt_trans hj hi⟩).serial ≠ serial := by
  induction digits with
  | nil => simp [DigitHandler.find_digit] at h
  | cons a rest ih =>
    by_cases ha : a.serial = serial
    · have had : a = d := by
        simpa [DigitHandler.find_digit, ha] using h
      subst had
      exact ⟨0, Nat.succ_pos rest.length, rfl, ha, fun j hj => absurd hj (Nat.not_lt_zero j)⟩
    · have h2 : DigitHandler.find_digit rest serial = some d := by
        simpa [DigitHandler.find_digit, ha] using h
      obtain ⟨i, hi, h3, h4, h5⟩ := ih h2
      refine ⟨i + 1, Nat.succ_lt_succ hi, h3, h4, fun j hj => ?_⟩
      cases j with
      | zero => exact ha
      | succ j2 => exact h5 j2 (Nat.lt_of_succ_lt_succ hj)

/-- Claim C5: `find_digit` is a linear scan returning the first
descriptor whose serial equals the query exactly; absence is signalled
by `none`, not an exception; and constructing a handle with a serial
that resolves to no descriptor raises in `populate` (the library's
device-not-found failure). -/
theorem find_digit_linear_scan (digits : List DeviceInfo) (serial : String)
    (name : Option String) :
    (∀ d, DigitHandler.find_digit digits serial = some d →
      ∃ i, ∃ hi : i < digits.length, digits.get ⟨i, hi⟩ = d ∧ d.serial = serial ∧
        ∀ j, ∀ hj : j < i, (digits.get ⟨j, Nat.lt_trans hj hi⟩).serial ≠ serial) ∧
    (DigitHandler.find_digit digits serial = none ↔
      ∀ d ∈ digits, d.serial ≠ serial) ∧
    (DigitHandler.find_digit digits serial = none →
      Digit.construct digits (some serial) name =
        .error (.exception ("Cannot find DIGIT with serial " ++ serial),
          Digit.init_state (some serial) name)) := by
  refine ⟨fun d h => find_digit_first digits serial d h,
          find_digit_none_iff digits serial, fun h => ?_⟩
  simp [Digit.construct, Digit.populate, h]

/-- Claim C5 witness: on a concrete two-element enumeration the query
"B" returns the first descriptor with that serial, the query "Z"
returns `none`, and constructing a handle with serial "Z" fails. -/
theorem find_digit_linear_scan_witness :
    (∃ i, ∃ hi : i < [⟨"/dev/video2", "F", "DIGIT", "0200", "A"⟩,
        (⟨"/dev/video4", "F", "DIGIT", "0200", "B"⟩ : DeviceInfo)].length,
      [⟨"/dev/video2", "F", "DIGIT", "0200", "A"⟩,
        (⟨"/dev/video4", "F", "DIGIT", "0200", "B"⟩ : DeviceInfo)].get ⟨i, hi⟩ =
          ⟨"/dev/video4", "F", "DIGIT", "0200", "B"⟩) ∧
    DigitHandler.find_digit [⟨"/dev/video2", "F", "DIGIT", "0200", "A"⟩,
        (⟨"/dev/video4", "F", "DIGIT", "0200", "B"⟩ : DeviceInfo)] "Z" = none ∧
    Digit.construct [⟨"/dev/video2", "F", "DIGIT", "0200", "A"⟩,
        (⟨"/dev/video4", "F", "DIGIT", "0200", "B"⟩ : DeviceInfo)] (some "Z") none =
      .error (.exception ("Cannot find DIGIT with serial " ++ "Z"),
        Digit.init_state (some "Z") none) := by
  have h1 := (find_digit_linear_scan [⟨"/dev/video2", "F", "DIGIT", "0200", "A"⟩,
    (⟨"/dev/video4", "F", "DIGIT", "0200", "B"⟩ : DeviceInfo)] "B" none).1
    ⟨"/dev/video4", "F", "DIGIT", "0200", "B"⟩ (by decide)
  have h2 := (find_digit_linear_scan [⟨"/dev/video2", "F", "DIGIT", "0200", "A"⟩,
    (⟨"/dev/video4", "F", "DIGIT", "0200", "B"⟩ : DeviceInfo)] "Z" none).2.2 (by decide)
  obtain ⟨i, hi, hget, _, _⟩ := h1
  exact ⟨⟨i, hi, hget⟩, by decide, h2⟩

/-- The state produced by a successful `connect()`: session bound with
QVGA width/height, 60 fps and the intensity control applied, mirror
fields set to the defaults.  On legacy firmware (revision below 200)
the uniform level 15 is first scaled down to `int(15 / 17) = 0`, so the
stored composite is 0; otherwise it is `rgb_composite 15 15 15 = 4095`. -/
def Digit.connect_result (cap : VideoCapture) (s : DigitState) : DigitState :=
  { s with dev := some { cap with prop_frame_width := 320,
                                  prop_frame_height := 240,
                                  prop_fps := 60,
                                  prop_zoom := if s.revision < 200 then 0 else 4095 },
           resolution := some ⟨320, 240⟩,
           fps := 60,
           intensity := if s.revision < 200 then 0 else 4095 }

/-- Claim C1: when the capture session opens, `connect()` applies the
fixed defaults — QVGA resolution 320x240, frame rate 60, and the
intensity resulting from setting the maximum uniform level 15 — and
`info()` subsequently reports exactly these values. -/
theorem connect_applies_default_config (cap : VideoCapture) (s : DigitState)
    (hopen : cap.opened = true) :
    Digit.connect cap s = .ok ((), Digit.connect_result cap s) ∧
    (Digit.connect_result cap s).resolution = some ⟨320, 240⟩ ∧
    (Digit.connect_result cap s).fps = 60 ∧
    (Digit.connect_result cap s).intensity = (if s.revision < 200 then 0 else 4095) ∧
    Digit.info (Digit.connect_result cap s) =
      .ok (Digit.info_header (Digit.connect_result cap s) ++ "\nStream Info:" ++
        "\n\t- Resolution: " ++ "320" ++ " x " ++ "240" ++
        "\n\t- FPS: " ++ "60" ++ "\n\t- LED Intensity: " ++
        (if s.revision < 200 then "0" else "4095")) := by
  have h320 : toString (320 : Int) = "320" := rfl
  have h240 : toString (240 : Int) = "240" := rfl
  have h60 : toString (60 : Int) = "60" := rfl
  have h0 : toString (0 : Int) = "0" := rfl
  have h4095 : toString (4095 : Int) = "4095" := rfl
  have ht : Int.tdiv 15 Digit.LIGHTING_SCALER = 0 := by decide
  have hc0 : (in_range_16 0 && in_range_16 0 && in_range_16 0) = true := by decide
  have hc15 : (in_range_16 15 && in_range_16 15 && in_range_16 15) = true := by decide
  have hr0 : ((rgb_composite (Int.toNat 0) (Int.toNat 0) (Int.toNat 0) : Nat) : Int) = 0 := by
    decide
  have hr15 : ((rgb_composite (Int.toNat 15) (Int.toNat 15) (Int.toNat 15) : Nat) : Int) = 4095 := by
    decide
  have hi0 : in_range_16 0 = true := by decide
  have hi15 : in_range_16 15 = true := by decide
  have hg0 : ((rgb_composite 0 0 0 : Nat) : Int) = 0 := by decide
  have hg15 : ((rgb_composite 15 15 15 : Nat) : Int) = 4095 := by decide
  rcases lt_or_le s.revision 200 with hrev | hrev
  · have hrev2 : ¬ (200 ≤ s.revision) := by omega
    refine ⟨?_, ?_, rfl, ?_, ?_⟩
    · simp [Digit.connect, Digit.set_resolution, Digit.set_fps, Digit.set_intensity,
        Digit.set_intensity_rgb, Digit.STREAMS_QVGA, Digit.connect_result, hopen,
        hrev, ht, hc0, hr0, hi0, hg0, List.lookup]
    · simp [Digit.connect_result]
    · simp [Digit.connect_result, hrev]
    · simp [Digit.info, Digit.is_connected, Digit.connect_result, hopen, hrev,
        h320, h240, h60, h0]
  · have hrev2 : ¬ (s.revision < 200) := by omega
    refine ⟨?_, ?_, rfl, ?_, ?_⟩
    · simp [Digit.connect, Digit.set_resolution, Digit.set_fps, Digit.set_intensity,
        Digit.set_intensity_rgb, Digit.STREAMS_QVGA, Digit.connect_result, hopen,
        hrev2, hc15, hr15, hi15, hg15, List.lookup]
    · simp [Digit.connect_result]
    · simp [Digit.connect_result, hrev2]
    · simp [Digit.info, Digit.is_connected, Digit.connect_result, hopen, hrev2,
        h320, h240, h60, h4095]

/-- Claim C1 witness: connecting a fresh revision-200 handle through an
opened capture session yields exactly the default configuration. -/
theorem connect_applies_default_config_witness :
    Digit.connect sampleCap { Digit.init_state (some "D12345") none with revision := 200 } =
      .ok ((), Digit.connect_result sampleCap
        { Digit.init_state (some "D12345") none with revision := 200 }) ∧
    (Digit.connect_result sampleCap
      { Digit.init_state (some "D12345") none with revision := 200 }).resolution =
        some ⟨320, 240⟩ :=
  ⟨(connect_applies_default_config sampleCap
      { Digit.init_state (some "D12345") none with revision := 200 } rfl).1,
   (connect_applies_default_config sampleCap
      { Digit.init_state (some "D12345") none with revision := 200 } rfl).2.1⟩

/-- Helper: the transposed buffer has one row per column of the input
(the column count being read off the first row, as `cv2.transpose` does
for a rectangular matrix). -/
theorem cv_transpose_length {α : Type} [Inhabited α] (m : List (List α)) :
    (cv_transpose m).length = (m.headD []).length := by
  simp [cv_transpose]

/-- Helper: every row of the transposed buffer has one entry per row of
the input. -/
theorem cv_transpose_row_length {α : Type} [Inhabited α] (m : List (List α)) :
    ∀ row ∈ cv_transpose m, row.length = m.length := by
  intro row hrow
  simp only [cv_transpose, List.mem_map, List.mem_range] at hrow
  obtain ⟨j, hj, rfl⟩ := hrow
  simp

/-- Helper: row `j` of the transposed buffer collects entry `j` of each
input row. -/
theorem cv_transpose_get {α : Type} [Inhabited α] (m : List (List α)) (j : Nat)
    (hj : j < (m.headD []).length) :
    (cv_transpose m).getD j [] = m.map (fun row => row.getD j default) := by
  have h1 : j < (cv_transpose m).length := by
    rw [cv_transpose_length]
    exact hj
  rw [List.getD_eq_getElem _ _ h1]
  simp [cv_transpose]

/-- Claim C6: with `transpose=False`, `get_frame` on an HxW frame
returns `cv2.flip(cv2.transpose(frame), 0)`, a WxH buffer whose entry
`(j, i)` is the input entry `(i, W - 1 - j)`; with `transpose=True` the
frame is returned with its original shape unmodified. -/
theorem get_frame_orientation {α : Type} [Inhabited α] (m : List (List α))
    (s : DigitState) (cap : VideoCapture) (H W : Nat)
    (hdev : s.dev = some cap) (hlen : m.length = H) (hpos : 0 < H)
    (hrect : ∀ row ∈ m, row.length = W) :
    Digit.get_frame (some m) false s = .ok (cv_flip0 (cv_transpose m), s) ∧
    (cv_flip0 (cv_transpose m)).length = W ∧
    (∀ row ∈ cv_flip0 (cv_transpose m), row.length = H) ∧
    (∀ j i, j < W → i < H →
      ((cv_flip0 (cv_transpose m)).getD j []).getD i default =
        (m.getD i []).getD (W - 1 - j) default) ∧
    Digit.get_frame (some m) true s = .ok (m, s) := by
  have hW : (m.headD []).length = W := by
    cases m with
    | nil => simp at hlen; omega
    | cons a rest => exact hrect a (by simp)
  have htlen : (cv_transpose m).length = W := by
    rw [cv_transpose_length, hW]
  refine ⟨by simp [Digit.get_frame, hdev], ?_, ?_, ?_, by simp [Digit.get_frame, hdev]⟩
  · simp [cv_flip0, htlen]
  · intro row hrow
    have hrow2 : row ∈ cv_transpose m := by
      simpa [cv_flip0] using hrow
    rw [cv_transpose_row_length m row hrow2, hlen]
  · intro j i hjW hiH
    have hj2 : j < (cv_transpose m).reverse.length := by
      simp [htlen]
      exact hjW
    have hjW2 : W - 1 - j < (m.headD []).length := by
      rw [hW]
      omega
    have h1 : (cv_flip0 (cv_transpose m)).getD j [] =
        (cv_transpose m).getD (W - 1 - j) [] := by
      unfold cv_flip0
      rw [List.getD_eq_getElem _ _ hj2, List.getElem_reverse,
        List.getD_eq_getElem _ _ (by rw [htlen]; omega)]
      congr 1
      rw [htlen]
    rw [h1, cv_transpose_get m (W - 1 - j) hjW2]
    have hiH2 : i < m.length := by
      rw [hlen]
      exact hiH
    rw [List.getD_eq_getElem _ _ (by simpa using hiH2), List.getElem_map,
      List.getD_eq_getElem _ _ hiH2]

/-- Claim C6 witness: the 3x2 frame [[1,2],[3,4],[5,6]] read through a
concrete connected handle comes back as the 2x3 buffer
`cv_flip0 (cv_transpose _)` whose top-left entry is the input entry
(0, 1); with `transpose=True` it is returned unchanged. -/
theorem get_frame_orientation_witness :
    Digit.get_frame (some [[1, 2], [3, 4], [5, 6]]) false sampleState =
      .ok (cv_flip0 (cv_transpose [[1, 2], [3, 4], [5, 6]]), sampleState) ∧
    (cv_flip0 (cv_transpose ([[1, 2], [3, 4], [5, 6]] : List (List Nat)))).length = 2 ∧
    ((cv_flip0 (cv_transpose ([[1, 2], [3, 4], [5, 6]] : List (List Nat)))).getD 0 []).getD 0 default =
      (([[1, 2], [3, 4], [5, 6]] : List (List Nat)).getD 0 []).getD (2 - 1 - 0) default ∧
    Digit.get_frame (some [[1, 2], [3, 4], [5, 6]]) true sampleState =
      .ok ([[1, 2], [3, 4], [5, 6]], sampleState) := by
  have h := get_frame_orientation ([[1, 2], [3, 4], [5, 6]] : List (List Nat))
    sampleState sampleCap 3 2 rfl rfl (by decide) (by decide)
  exact ⟨h.1, h.2.1, h.2.2.2.1 0 0 (by decide) (by decide), h.2.2.2.2⟩

/-- Claim C9: `get_diff` captures a frame (with the default orientation
correction) and returns the elementwise numpy `uint8` difference
`current - reference`; per pixel the stored value is the mathematical
difference reduced modulo 256 (unsigned wraparound, not saturating:
`0 - 1` yields 255). -/
theorem get_diff_wraparound (raw ref_frame : List (List U8)) (s : DigitState)
    (cap : VideoCapture) (hdev : s.dev = some cap) :
    Digit.get_diff (some raw) ref_frame s =
      .ok (frame_sub (cv_flip0 (cv_transpose raw)) ref_frame, s) ∧
    (∀ x y : U8, (((x - y : U8)).val : Int) = ((x.val : Int) - (y.val : Int)) % 256) ∧
    (∀ a b : List (List U8), ∀ i j : Nat,
      ((frame_sub a b).getD i []).getD j default =
        (a.getD i []).getD j default - (b.getD i []).getD j default ∨
      i ≥ (frame_sub a b).length ∨ j ≥ ((frame_sub a b).getD i []).length) := by
  refine ⟨by simp [Digit.get_diff, Digit.get_frame, hdev], fun x y => ?_, ?_⟩
  · have h1 : (x - y).val = (256 - y.val + x.val) % 256 := rfl
    have hx := x.isLt
    have hy := y.isLt
    rw [h1]
    omega
  · intro a b i j
    by_cases hi : i < (frame_sub a b).length
    · by_cases hj : j < ((frame_sub a b).getD i []).length
      · left
        have hia : i < a.length := by
          simp [frame_sub] at hi
          omega
        have hib : i < b.length := by
          simp [frame_sub] at hi
          omega
        have hrow : (frame_sub a b).getD i [] =
            List.zipWith (fun x y : U8 => x - y) (a.getD i []) (b.getD i []) := by
          rw [List.getD_eq_getElem _ _ hi]
          simp only [frame_sub, List.getElem_zipWith]
          rw [List.getD_eq_getElem _ _ hia, List.getD_eq_getElem _ _ hib]
        rw [hrow] at hj ⊢
        have hmin := hj
        rw [List.length_zipWith] at hmin
        have hja : j < (a.getD i []).length := by omega
        have hjb : j < (b.getD i []).length := by omega
        rw [List.getD_eq_getElem _ _ hj, List.getElem_zipWith,
          List.getD_eq_getElem _ _ hja, List.getD_eq_getElem _ _ hjb]
      · right
        right
        omega
    · right
      left
      omega

/-- Claim C9 witness: on a concrete connected handle, diffing the raw
frame [[3, 200]] against the reference [[5], [100]] wraps per pixel:
the corrected frame is [[200], [3]] and 200 - 5 = 195 while 3 - 100
wraps to 159; and the pixel rule 0 - 1 = 255 follows from the modular
formula. -/
theorem get_diff_wraparound_witness :
    Digit.get_diff (some [[⟨3, by omega⟩, ⟨200, by omega⟩]])
        [[⟨5, by omega⟩], [⟨100, by omega⟩]] sampleState =
      .ok (frame_sub (cv_flip0 (cv_transpose [[⟨3, by omega⟩, ⟨200, by omega⟩]]))
        [[⟨5, by omega⟩], [⟨100, by omega⟩]], sampleState) ∧
    (((⟨0, by omega⟩ - ⟨1, by omega⟩ : U8)).val : Int) =
      (((0 : Nat) : Int) - ((1 : Nat) : Int)) % 256 := by
  have h := get_diff_wraparound [[⟨3, by omega⟩, ⟨200, by omega⟩]]
    [[⟨5, by omega⟩], [⟨100, by omega⟩]] sampleState sampleCap rfl
  exact ⟨h.1, h.2.1 ⟨0, by omega⟩ ⟨1, by omega⟩⟩
